import Mathlib

/-!
Verification of the go-ipfs object-patch layer: the object-patch engine
semantics (spec §3, §4.1–4.2), the four CLI patch subcommand handlers
(`core/commands/object/patch.go`) and the CoreAPI facade
(`core/coreapi/coreapi.go`).

The engine model lives in namespace `Engine`, the command-adapter model in
namespace `Cmds`, the facade model in namespace `Facade`.
-/

set_option autoImplicit false

namespace Engine

/-- Modelled from the spec: the error taxonomy (§7) restricted to the kinds
the pure link-table operations can raise (`InvalidArgument`, `NotFound`);
the engine implementation itself is not under `src/`. -/
inductive PatchError where
  | invalidArgument
  | notFound
  deriving DecidableEq, Repr

/-- Modelled from the spec (§3 Object, Link): a Merkle-DAG object is a data
blob plus an ordered table of named links. A link is
`{name, target, size}`; because an identity is a deterministic,
collision-avoiding fingerprint of the target's content, the identity in the
`target` slot is modelled by the target object itself. The engine
implementation is not under `src/`. Each link is a triple
`(name, target, size)`. -/
inductive Obj where
  | mk (data : List Nat) (links : List (String × Obj × Nat)) : Obj

/-- The data segment of an object. -/
def Obj.data : Obj → List Nat
  | .mk d _ => d

/-- The link table of an object. -/
def Obj.links : Obj → List (String × Obj × Nat)
  | .mk _ ls => ls

/-- Modelled from the spec (§3): identity = deterministic fingerprint of the
canonical serialization of `(data, links)`; equal content gives equal
identity and collision-avoidance is delegated, so the identity is modelled
as the canonical content itself. -/
def identityOf (o : Obj) : Obj := o

/-- Look up a link by exact name in a link table (first match; names are
unique by the last-write-wins insertion invariant of §3). -/
def lookupLink (links : List (String × Obj × Nat)) (n : String) : Option Obj :=
  match links with
  | [] => none
  | (m, t, _) :: rest => if m = n then some t else lookupLink rest n

/-- Insert a link with last-write-wins semantics (§3): an existing entry of
the same name is replaced in place, otherwise the new entry is appended. -/
def insertLink (links : List (String × Obj × Nat)) (n : String) (t : Obj) (sz : Nat) :
    List (String × Obj × Nat) :=
  match links with
  | [] => [(n, t, sz)]
  | (m, t0, s0) :: rest =>
    if m = n then (n, t, sz) :: rest else (m, t0, s0) :: insertLink rest n t sz

/-- Remove the link of exactly the given name; `none` when no such link
exists. -/
def removeLink (links : List (String × Obj × Nat)) (n : String) :
    Option (List (String × Obj × Nat)) :=
  match links with
  | [] => none
  | (m, t, s) :: rest =>
    if m = n then some rest else (removeLink rest n).map ((m, t, s) :: ·)

/-- Modelled from the spec (§4.1 `SetData`): replaces the data segment
wholesale; links untouched. -/
def SetData (obj : Obj) (newData : List Nat) : Obj :=
  Obj.mk newData obj.links

/-- Modelled from the spec (§4.1 `AppendData`): replaces the data segment
with existing data followed by the new bytes; links untouched. -/
def AppendData (obj : Obj) (moreData : List Nat) : Obj :=
  Obj.mk (obj.data ++ moreData) obj.links

/-- Modelled from the spec (§4.1 `RmLink`): fails with `NotFound` if no link
with that exact name exists (single segment only, no traversal); otherwise
removes that entry, all other links and the data untouched. -/
def RmLink (obj : Obj) (n : String) : Except PatchError Obj :=
  match removeLink obj.links n with
  | none => .error .notFound
  | some ls => .ok (Obj.mk obj.data ls)

/-- Modelled from the spec (§4.1 `AddLink`), recursion over the
slash-separated segments of the link name: a single segment is
inserted/replaced in this object's table; for a longer path the first
segment must resolve to an existing linked object (else with
`allowIntermediate` an empty object is synthesized, else the call fails),
the rest of the path is installed under it, and the modified child is
re-linked here, re-wrapping this object bottom-up. -/
def addLinkSegs (obj : Obj) (segs : List String) (target : Obj) (targetSize : Nat)
    (allowIntermediate : Bool) : Except PatchError Obj :=
  match segs with
  | [] => .error .invalidArgument
  | [n] => .ok (Obj.mk obj.data (insertLink obj.links n target targetSize))
  | n :: rest =>
    match lookupLink obj.links n with
    | some child =>
      match addLinkSegs child rest target targetSize allowIntermediate with
      | .ok child2 => .ok (Obj.mk obj.data (insertLink obj.links n child2 0))
      | .error e => .error e
    | none =>
      if allowIntermediate then
        match addLinkSegs (Obj.mk [] []) rest target targetSize allowIntermediate with
        | .ok child2 => .ok (Obj.mk obj.data (insertLink obj.links n child2 0))
        | .error e => .error e
      else .error .invalidArgument

/-- Split a character sequence into its slash-separated segments (the empty
sequence is the single empty segment, as with the standard split). -/
def splitSegs : List Char → List String
  | [] => [""]
  | c :: rest =>
    let r := splitSegs rest
    if c = '/' then "" :: r
    else
      match r with
      | [] => [String.mk [c]]
      | s :: ss => String.mk (c :: s.toList) :: ss

/-- Modelled from the spec (§4.1 `AddLink`): split the name on the path
separator and install along the segments. -/
def AddLink (obj : Obj) (name : String) (target : Obj) (targetSize : Nat)
    (allowIntermediate : Bool) : Except PatchError Obj :=
  addLinkSegs obj (splitSegs name.toList) target targetSize allowIntermediate

end Engine

namespace Cmds

/-- The cmdkit error kinds a handler can pass to `SetError`; patch.go only
ever uses `ErrNormal`, the non-fatal kind (cmdkit itself is outside src/,
only the distinction between the normal kind and the others matters
here). -/
inductive ErrKind where
  | errNormal
  | errClient
  | errFatal
  deriving DecidableEq, Repr

/-- A content identifier as the handlers see it: an opaque value with a
canonical string encoding (`p.Cid().String()`). -/
structure Cid where
  str : String
  deriving DecidableEq, Repr

/-- A resolved coreiface path, as returned by `api.ParsePath` and by the
engine operations; the handlers use only its Cid. -/
structure IPath where
  cid : Cid
  deriving DecidableEq, Repr

/-- An opaque handle for the streamed data source returned by
`req.Files().NextFile()`; the handlers pass it through unread. -/
structure FileData where
  id : Nat
  deriving DecidableEq, Repr

/-- One invocation of an Object sub-API patch operation, with the arguments
the handler passed (`api.Object().AppendData(...)` etc. in patch.go). -/
inductive EngineCall where
  | appendData (root : IPath) (data : FileData)
  | setData (root : IPath) (data : FileData)
  | rmLink (root : IPath) (link : String)
  | addLink (root : IPath) (name : String) (child : IPath) (create : Bool)
  deriving DecidableEq, Repr

/-- The command output value `&Object{Hash: p.Cid().String()}` set by every
patch handler; the `Object` output struct is declared elsewhere in the
objectcmd package (outside src/), but patch.go produces and renders only
its `Hash` field. -/
structure ObjectOut where
  Hash : String
  deriving DecidableEq, Repr

/-- The observable actions of one `Run` invocation, in order: Object
sub-API calls, `res.SetError(err, kind)` and `res.SetOutput(v)`. -/
inductive Event where
  | engine (c : EngineCall)
  | setError (msg : String) (kind : ErrKind)
  | setOutput (o : ObjectOut)
  deriving DecidableEq, Repr

/-- The value handed to a text marshaler: the response output, which is the
`*Object` set by the handler on the success path or some other value
(`unwrapOutput` and the runtime type assertion live outside src/). -/
inductive MarshalValue where
  | obj (o : ObjectOut)
  | other
  deriving DecidableEq, Repr

/-- `objectMarshaler` (patch.go lines 31–43): unwrap the output, fail with a
type error unless it is an `*Object`, else render `o.Hash + "\n"`. -/
def objectMarshaler : MarshalValue → Except String String
  | .obj o => .ok (o.Hash ++ "\x0a")
  | .other => .error "type error"

/-- The oracle outcomes and arguments of one `append-data` invocation:
each field is the result the corresponding collaborator call would return
(`req.InvocContext().GetApi()`, `api.ParsePath`, `req.Files().NextFile()`,
`api.Object().AppendData`). -/
structure AppendDataReq where
  rootArg : String
  getApi : Except String Unit
  parsePath : String → Except String IPath
  nextFile : Except String FileData
  appendData : IPath → FileData → Except String IPath

/-- `patchAppendDataCmd.Run` (patch.go lines 64–90): GetApi, ParsePath of
the root argument, NextFile, then `Object().AppendData(root, data)`; every
error is `SetError(err, ErrNormal)` followed by return, success is
`SetOutput(&Object{Hash: p.Cid().String()})`. -/
def patchAppendDataRun (req : AppendDataReq) : List Event :=
  match req.getApi with
  | .error e => [.setError e .errNormal]
  | .ok _ =>
    match req.parsePath req.rootArg with
    | .error e => [.setError e .errNormal]
    | .ok root =>
      match req.nextFile with
      | .error e => [.setError e .errNormal]
      | .ok data =>
        .engine (.appendData root data) ::
          match req.appendData root data with
          | .error e => [.setError e .errNormal]
          | .ok p => [.setOutput ⟨p.cid.str⟩]

/-- The oracle outcomes and arguments of one `set-data` invocation. -/
structure SetDataReq where
  rootArg : String
  getApi : Except String Unit
  parsePath : String → Except String IPath
  nextFile : Except String FileData
  setData : IPath → FileData → Except String IPath

/-- `patchSetDataCmd.Run` (patch.go lines 112–137): same shape as
append-data but calling `Object().SetData`. -/
def patchSetDataRun (req : SetDataReq) : List Event :=
  match req.getApi with
  | .error e => [.setError e .errNormal]
  | .ok _ =>
    match req.parsePath req.rootArg with
    | .error e => [.setError e .errNormal]
    | .ok root =>
      match req.nextFile with
      | .error e => [.setError e .errNormal]
      | .ok data =>
        .engine (.setData root data) ::
          match req.setData root data with
          | .error e => [.setError e .errNormal]
          | .ok p => [.setOutput ⟨p.cid.str⟩]

/-- The oracle outcomes and arguments of one `rm-link` invocation. -/
structure RmLinkReq where
  rootArg : String
  linkArg : String
  getApi : Except String Unit
  parsePath : String → Except String IPath
  rmLink : IPath → String → Except String IPath

/-- `patchRmLinkCmd.Run` (patch.go lines 155–176): GetApi, ParsePath of the
root argument, then `Object().RmLink(root, link)` with the second string
argument as link name. -/
def patchRmLinkRun (req : RmLinkReq) : List Event :=
  match req.getApi with
  | .error e => [.setError e .errNormal]
  | .ok _ =>
    match req.parsePath req.rootArg with
    | .error e => [.setError e .errNormal]
    | .ok root =>
      .engine (.rmLink root req.linkArg) ::
        match req.rmLink root req.linkArg with
        | .error e => [.setError e .errNormal]
        | .ok p => [.setOutput ⟨p.cid.str⟩]

/-- The state of the `--create` option in a request: not given, given with
a boolean value, or given with a value of the wrong type. -/
inductive OptVal where
  | absent
  | present (b : Bool)
  | invalid (msg : String)
  deriving DecidableEq, Repr

/-- Modelled from the spec: cmdkit's `Option("create").Bool()` accessor
(cmdkit is outside src/) — returns (value, found): the supplied boolean
with found=true when present, an error when the supplied value is not a
boolean, and the `BoolOption` zero default `false` with found=false when
absent. -/
def optionBool : OptVal → Except String (Bool × Bool)
  | .present b => .ok (b, true)
  | .absent => .ok (false, false)
  | .invalid e => .error e

/-- One declared boolean command option: long name, short name, help. -/
structure BoolOpt where
  name : String
  short : String
  desc : String
  deriving DecidableEq, Repr

/-- `patchAddLinkCmd.Options` (patch.go lines 204–206): the single option
`BoolOption("create", "p", "Create intermediary nodes.")`. -/
def patchAddLinkOptions : List BoolOpt :=
  [⟨"create", "p", "Create intermediary nodes."⟩]

/-- The oracle outcomes and arguments of one `add-link` invocation. -/
structure AddLinkReq where
  rootArg : String
  nameArg : String
  refArg : String
  getApi : Except String Unit
  parsePath : String → Except String IPath
  createOpt : OptVal
  addLink : IPath → String → IPath → Bool → Except String IPath

/-- `patchAddLinkCmd.Run` (patch.go lines 207–242): GetApi, ParsePath of
root, name from the second argument, ParsePath of ref, then
`create, _, err := req.Option("create").Bool()` (found flag discarded),
then `Object().AddLink(root, name, child, WithCreate(create))`. -/
def patchAddLinkRun (req : AddLinkReq) : List Event :=
  match req.getApi with
  | .error e => [.setError e .errNormal]
  | .ok _ =>
    match req.parsePath req.rootArg with
    | .error e => [.setError e .errNormal]
    | .ok root =>
      match req.parsePath req.refArg with
      | .error e => [.setError e .errNormal]
      | .ok child =>
        match optionBool req.createOpt with
        | .error e => [.setError e .errNormal]
        | .ok (create, _) =>
          .engine (.addLink root req.nameArg child create) ::
            match req.addLink root req.nameArg child create with
            | .error e => [.setError e .errNormal]
            | .ok p => [.setOutput ⟨p.cid.str⟩]

/-- The handlers the `ObjectPatchCmd` subcommand table can point at. -/
inductive HandlerTag where
  | appendDataH
  | addLinkH
  | rmLinkH
  | setDataH
  deriving DecidableEq, Repr

/-- `ObjectPatchCmd.Subcommands` (patch.go lines 23–28): the subcommand
name → handler table. -/
def ObjectPatchSubcommands : List (String × HandlerTag) :=
  [("append-data", .appendDataH), ("add-link", .addLinkH),
   ("rm-link", .rmLinkH), ("set-data", .setDataH)]

/-- `SetError` and `SetOutput` events are the terminal responses of a run. -/
def Event.isTerminal : Event → Bool
  | .setError _ _ => true
  | .setOutput _ => true
  | .engine _ => false

/-- How many terminal responses a run produced. -/
def terminalCount (t : List Event) : Nat :=
  (t.filter Event.isTerminal).length

/-- The Object sub-API calls a run performed, in order. -/
def engineCalls (t : List Event) : List EngineCall :=
  t.filterMap fun e =>
    match e with
    | .engine c => some c
    | _ => none

/-- Every `SetError` in the trace used the non-fatal `ErrNormal` kind. -/
def errorsAreNormal (t : List Event) : Bool :=
  t.all fun e =>
    match e with
    | .setError _ k => k = .errNormal
    | _ => true

/-- Recognizers for the four kinds of engine call. -/
def EngineCall.isAppendData : EngineCall → Bool
  | .appendData _ _ => true
  | _ => false

def EngineCall.isSetData : EngineCall → Bool
  | .setData _ _ => true
  | _ => false

def EngineCall.isRmLink : EngineCall → Bool
  | .rmLink _ _ => true
  | _ => false

def EngineCall.isAddLink : EngineCall → Bool
  | .addLink _ _ _ _ => true
  | _ => false

end Cmds

namespace Facade

/-- An opaque running node context (`*core.IpfsNode`); the facade stores it
and passes it along without inspecting it. -/
structure IpfsNode where
  ident : Nat
  deriving DecidableEq, Repr

/-- Opaque per-call API options (`*caopts.ApiOptions`); the facade embeds a
possibly-nil pointer to them. -/
structure ApiOptions where
  ident : Nat
  deriving DecidableEq, Repr

/-- `CoreAPI` (coreapi.go lines 9–12): the facade struct holding the node
and an embedded optional `ApiOptions`. -/
structure CoreAPI where
  node : IpfsNode
  apiOptions : Option ApiOptions
  deriving DecidableEq, Repr

/-- `NewCoreAPI` (coreapi.go lines 14–18): binds a fresh facade to the
given node, with nil options. -/
def NewCoreAPI (n : IpfsNode) : CoreAPI :=
  ⟨n, none⟩

/-- `UnixfsAPI` is a defined type over `CoreAPI` elsewhere in the package;
`Unixfs()` converts the same facade value, so it carries exactly the
facade's contents. -/
structure UnixfsAPI where
  core : CoreAPI
  deriving DecidableEq, Repr

/-- Sub-API structs: each is built as `&XxxAPI{api, nil}`, the facade plus
nil per-sub-API options. -/
structure BlockAPI where
  core : CoreAPI
  opts : Option ApiOptions
  deriving DecidableEq, Repr

structure DagAPI where
  core : CoreAPI
  opts : Option ApiOptions
  deriving DecidableEq, Repr

structure NameAPI where
  core : CoreAPI
  opts : Option ApiOptions
  deriving DecidableEq, Repr

structure KeyAPI where
  core : CoreAPI
  opts : Option ApiOptions
  deriving DecidableEq, Repr

structure ObjectAPI where
  core : CoreAPI
  opts : Option ApiOptions
  deriving DecidableEq, Repr

structure PinAPI where
  core : CoreAPI
  opts : Option ApiOptions
  deriving DecidableEq, Repr

/-- `Unixfs()` (coreapi.go lines 21–23): `(*UnixfsAPI)(api)`. -/
def CoreAPI.Unixfs (api : CoreAPI) : UnixfsAPI :=
  ⟨api⟩

/-- `Block()` (coreapi.go lines 25–27): `&BlockAPI{api, nil}`. -/
def CoreAPI.Block (api : CoreAPI) : BlockAPI :=
  ⟨api, none⟩

/-- `Dag()` (coreapi.go lines 29–32): `&DagAPI{api, nil}`. -/
def CoreAPI.Dag (api : CoreAPI) : DagAPI :=
  ⟨api, none⟩

/-- `Name()` (coreapi.go lines 34–37): `&NameAPI{api, nil}`. -/
def CoreAPI.Name (api : CoreAPI) : NameAPI :=
  ⟨api, none⟩

/-- `Key()` (coreapi.go lines 39–42): `&KeyAPI{api, nil}`. -/
def CoreAPI.Key (api : CoreAPI) : KeyAPI :=
  ⟨api, none⟩

/-- `Object()` (coreapi.go lines 44–47): `&ObjectAPI{api, nil}`. -/
def CoreAPI.Object (api : CoreAPI) : ObjectAPI :=
  ⟨api, none⟩

/-- `Pin()` (coreapi.go lines 49–51): `&PinAPI{api, nil}`. -/
def CoreAPI.Pin (api : CoreAPI) : PinAPI :=
  ⟨api, none⟩

end Facade

namespace Cmds

/-- A sample `append-data` request in which every collaborator call
succeeds. -/
def okAppendReq : AppendDataReq :=
  ⟨"QmRoot", .ok (), fun s => .ok ⟨⟨s⟩⟩, .ok ⟨0⟩, fun _ _ => .ok ⟨⟨"QmNew1"⟩⟩⟩

/-- A sample `set-data` request in which every collaborator call
succeeds. -/
def okSetReq : SetDataReq :=
  ⟨"QmRoot", .ok (), fun s => .ok ⟨⟨s⟩⟩, .ok ⟨0⟩, fun _ _ => .ok ⟨⟨"QmNew2"⟩⟩⟩

/-- A sample `rm-link` request in which every collaborator call
succeeds. -/
def okRmReq : RmLinkReq :=
  ⟨"QmRoot", "foo", .ok (), fun s => .ok ⟨⟨s⟩⟩, fun _ _ => .ok ⟨⟨"QmNew3"⟩⟩⟩

/-- A sample `add-link` request in which every collaborator call succeeds
and `--create` was supplied as true. -/
def okAddReq : AddLinkReq :=
  ⟨"QmRoot", "foo", "QmChild", .ok (), fun s => .ok ⟨⟨s⟩⟩, .present true,
    fun _ _ _ _ => .ok ⟨⟨"QmNew4"⟩⟩⟩

/-- A sample `add-link` request in which the `--create` option was not
supplied. -/
def noOptAddReq : AddLinkReq :=
  ⟨"QmRoot", "foo", "QmChild", .ok (), fun s => .ok ⟨⟨s⟩⟩, .absent,
    fun _ _ _ _ => .ok ⟨⟨"QmNew5"⟩⟩⟩

/-- A sample `append-data` request in which root resolution fails. -/
def badPathAppendReq : AppendDataReq :=
  ⟨"QmRoot", .ok (), fun _ => .error "resolve failed", .ok ⟨0⟩,
    fun _ _ => .ok ⟨⟨"QmNew1"⟩⟩⟩

/-- A sample `set-data` request in which root resolution fails. -/
def badPathSetReq : SetDataReq :=
  ⟨"QmRoot", .ok (), fun _ => .error "resolve failed", .ok ⟨0⟩,
    fun _ _ => .ok ⟨⟨"QmNew2"⟩⟩⟩

/-- A sample `rm-link` request in which root resolution fails. -/
def badPathRmReq : RmLinkReq :=
  ⟨"QmRoot", "foo", .ok (), fun _ => .error "resolve failed",
    fun _ _ => .ok ⟨⟨"QmNew3"⟩⟩⟩

/-- A sample `add-link` request in which root resolution fails. -/
def badPathAddReq : AddLinkReq :=
  ⟨"QmRoot", "foo", "QmChild", .ok (), fun _ => .error "resolve failed",
    .present true, fun _ _ _ _ => .ok ⟨⟨"QmNew4"⟩⟩⟩

/-- A sample `add-link` request in which the root resolves but the ref
argument fails to resolve. -/
def badRefAddReq : AddLinkReq :=
  ⟨"QmRoot", "foo", "QmChild", .ok (),
    fun s => if s = "QmChild" then .error "ref resolve failed" else .ok ⟨⟨s⟩⟩,
    .present true, fun _ _ _ _ => .ok ⟨⟨"QmNew4"⟩⟩⟩

end Cmds

namespace Engine

/-- Inserting a name that is not yet in a link table appends it, and
removing that name afterwards restores exactly the original table. -/
theorem removeLink_insertLink (n : String) (t : Obj) (sz : Nat) :
    ∀ ls : List (String × Obj × Nat), lookupLink ls n = none →
      removeLink (insertLink ls n t sz) n = some ls := by
  intro ls h
  induction ls with
  | nil => simp [insertLink, removeLink]
  | cons hd tl ih =>
    obtain ⟨m, t0, s0⟩ := hd
    by_cases hm : m = n
    · simp [lookupLink, hm] at h
    · simp [lookupLink, hm] at h
      simp [insertLink, hm, removeLink, ih h]

/-- A successful `addLinkSegs` never changes the root object's data
segment, whatever the path shape or intermediate synthesis. -/
theorem addLinkSegs_data (segs : List String) :
    ∀ (O T : Obj) (sz : Nat) (ai : Bool) (R : Obj),
      addLinkSegs O segs T sz ai = .ok R → R.data = O.data := by
  intro O T sz ai R h
  cases segs with
  | nil => simp [addLinkSegs] at h
  | cons n rest =>
    cases rest with
    | nil =>
      simp [addLinkSegs] at h
      rw [← h]
      rfl
    | cons n2 rest2 =>
      unfold addLinkSegs at h
      split at h
      · split at h
        · injection h with h'
          rw [← h']
          rfl
        · cases h
      · split at h
        · split at h
          · injection h with h'
            rw [← h']
            rfl
          · cases h
        · cases h

/-- A successful `RmLink` never changes the object's data segment. -/
theorem rmLink_data (O : Obj) (m : String) (R : Obj) (h : RmLink O m = .ok R) :
    R.data = O.data := by
  unfold RmLink at h
  split at h
  · cases h
  · injection h with h'
    rw [← h']
    rfl

/-- Claim C6, counterexample: for the empty object O, the name "a/b" (not
in O's link table) and any target, `AddLink` with intermediary creation
succeeds — installing a link named "a", not "a/b" — and the subsequent
`RmLink` of "a/b" fails with NotFound, so the round trip yields no object
at all; the claim as stated, quantified over every link name, is false. -/
theorem addLink_rmLink_roundtrip_cex :
    lookupLink (Obj.mk [] []).links "a/b" = none ∧
    ¬ ∃ R R', AddLink (Obj.mk [] []) "a/b" (Obj.mk [7] []) 5 true = .ok R ∧
        RmLink R "a/b" = .ok R' := by
  refine ⟨rfl, ?_⟩
  rintro ⟨R, R', hR, hR'⟩
  rw [show AddLink (Obj.mk [] []) "a/b" (Obj.mk [7] []) 5 true =
      .ok (Obj.mk [] [("a", Obj.mk [] [("b", Obj.mk [7] [], 5)], 0)]) from rfl] at hR
  injection hR with h
  subst h
  rw [show RmLink (Obj.mk [] [("a", Obj.mk [] [("b", Obj.mk [7] [], 5)], 0)]) "a/b" =
      .error .notFound from rfl] at hR'
  cases hR'

/-- Claim C6, amended: for every object O, every single-segment link name
(one containing no path separator, so that it can actually be installed
verbatim) not already in O's link table, and every target T and size:
`AddLink(O, name, T)` followed by `RmLink(result, name)` yields exactly O
back — data segment equal, link table equal (hence order-insensitively
equal), and therefore the identity of the final object equals O's. -/
theorem addLink_rmLink_roundtrip (O : Obj) (n : String) (T : Obj) (sz : Nat) (ai : Bool)
    (hseg : splitSegs n.toList = [n]) (hfresh : lookupLink O.links n = none) :
    (AddLink O n T sz ai).bind (fun R => RmLink R n) = .ok O ∧
    ∀ R', (AddLink O n T sz ai).bind (fun R => RmLink R n) = .ok R' →
      R'.data = O.data ∧ List.Perm R'.links O.links ∧ identityOf R' = identityOf O := by
  have h1 : AddLink O n T sz ai = .ok (Obj.mk O.data (insertLink O.links n T sz)) := by
    unfold AddLink
    rw [hseg]
    rfl
  have h2 : RmLink (Obj.mk O.data (insertLink O.links n T sz)) n = .ok O := by
    unfold RmLink
    have hr := removeLink_insertLink n T sz O.links hfresh
    simp only [Obj.links, Obj.data] at hr ⊢
    rw [hr]
    cases O
    rfl
  constructor
  · rw [h1]
    simpa using h2
  · intro R' hR'
    rw [h1] at hR'
    simp only [Except.bind] at hR'
    rw [h2] at hR'
    injection hR' with h
    subst h
    exact ⟨rfl, List.Perm.refl _, rfl⟩

/-- Witness for the amended C6 round trip at a concrete object with one
existing link, fresh single-segment name "y". -/
theorem addLink_rmLink_roundtrip_witness :
    (AddLink (Obj.mk [1] [("x", Obj.mk [] [], 2)]) "y" (Obj.mk [3] []) 7 false).bind
      (fun R => RmLink R "y") = .ok (Obj.mk [1] [("x", Obj.mk [] [], 2)]) :=
  (addLink_rmLink_roundtrip (Obj.mk [1] [("x", Obj.mk [] [], 2)]) "y"
    (Obj.mk [3] []) 7 false rfl rfl).1

/-- Claim C7: each patch operation touches exactly one of the two
dimensions — `SetData` and `AppendData` leave the link table unchanged,
and any successful `AddLink` or `RmLink` leaves the data segment
unchanged. -/
theorem patch_orthogonality (O : Obj) (d : List Nat) (n m : String) (T : Obj)
    (sz : Nat) (ai : Bool) :
    (SetData O d).links = O.links ∧
    (AppendData O d).links = O.links ∧
    (∀ R, AddLink O n T sz ai = .ok R → R.data = O.data) ∧
    (∀ R, RmLink O m = .ok R → R.data = O.data) := by
  refine ⟨rfl, rfl, ?_, ?_⟩
  · intro R h
    exact addLinkSegs_data (splitSegs n.toList) O T sz ai R h
  · intro R h
    exact rmLink_data O m R h

/-- Witness for C7 at concrete objects: an `AddLink` result keeps the data
segment `[1]`, an `RmLink` result keeps the data segment `[2]`, and
`SetData` keeps the (empty) link table. -/
theorem patch_orthogonality_witness :
    (Obj.mk [1] [("a", Obj.mk [] [], 0)]).data = (Obj.mk [1] []).data ∧
    (Obj.mk [2] []).data = (Obj.mk [2] [("b", Obj.mk [] [], 0)]).data ∧
    (SetData (Obj.mk [1] []) [9]).links = (Obj.mk [1] []).links := by
  refine ⟨?_, ?_, ?_⟩
  · exact (patch_orthogonality (Obj.mk [1] []) [9] "a" "b" (Obj.mk [] [])
      0 true).2.2.1 (Obj.mk [1] [("a", Obj.mk [] [], 0)]) rfl
  · exact (patch_orthogonality (Obj.mk [2] [("b", Obj.mk [] [], 0)]) [9] "a" "b"
      (Obj.mk [] []) 0 true).2.2.2 (Obj.mk [2] []) rfl
  · exact (patch_orthogonality (Obj.mk [1] []) [9] "a" "b" (Obj.mk [] [])
      0 true).1

/-- Claim C8: appending `a` and then `b` yields the same data segment as
appending `a ++ b` in one step — the original data followed by `a`
followed by `b`. -/
theorem appendData_assoc (O : Obj) (a b : List Nat) :
    (AppendData (AppendData O a) b).data = (AppendData O (a ++ b)).data := by
  simp [AppendData, Obj.data, List.append_assoc]

end Engine

namespace Facade

/-- Claim C5: `NewCoreAPI` binds the facade to the given node with nil
options, and every accessor (`Object`, `Block`, `Dag`, `Name`, `Key`,
`Pin`, `Unixfs`) constructs a sub-API value that carries exactly the
facade it was called on — hence the same single node context — with nil
per-sub-API options; the accessors are pure constructions (they are plain
functions of the facade value, performing no storage or network action and
mutating nothing). -/
theorem coreapi_accessors_share_node (n : IpfsNode) (api : CoreAPI) :
    (NewCoreAPI n).node = n ∧
    (NewCoreAPI n).apiOptions = none ∧
    (api.Object).core = api ∧
    (api.Object).opts = none ∧
    (api.Object).core.node = api.node ∧
    (api.Block).core = api ∧
    (api.Block).opts = none ∧
    (api.Block).core.node = api.node ∧
    (api.Dag).core = api ∧
    (api.Dag).opts = none ∧
    (api.Dag).core.node = api.node ∧
    (api.Name).core = api ∧
    (api.Name).opts = none ∧
    (api.Name).core.node = api.node ∧
    (api.Key).core = api ∧
    (api.Key).opts = none ∧
    (api.Key).core.node = api.node ∧
    (api.Pin).core = api ∧
    (api.Pin).opts = none ∧
    (api.Pin).core.node = api.node ∧
    (api.Unixfs).core = api ∧
    (api.Unixfs).core.node = api.node :=
  ⟨rfl, rfl, rfl, rfl, rfl, rfl, rfl, rfl, rfl, rfl, rfl, rfl, rfl, rfl, rfl,
    rfl, rfl, rfl, rfl, rfl, rfl, rfl⟩

end Facade

namespace Cmds

/-- Every `SetError` an `append-data` run issues uses `ErrNormal`. -/
theorem errorsAreNormal_append (r : AppendDataReq) :
    errorsAreNormal (patchAppendDataRun r) = true := by
  unfold patchAppendDataRun
  repeat' split
  all_goals rfl

/-- Every `SetError` a `set-data` run issues uses `ErrNormal`. -/
theorem errorsAreNormal_setData (r : SetDataReq) :
    errorsAreNormal (patchSetDataRun r) = true := by
  unfold patchSetDataRun
  repeat' split
  all_goals rfl

/-- Every `SetError` an `rm-link` run issues uses `ErrNormal`. -/
theorem errorsAreNormal_rmLink (r : RmLinkReq) :
    errorsAreNormal (patchRmLinkRun r) = true := by
  unfold patchRmLinkRun
  repeat' split
  all_goals rfl

/-- Every `SetError` an `add-link` run issues uses `ErrNormal`. -/
theorem errorsAreNormal_addLink (r : AddLinkReq) :
    errorsAreNormal (patchAddLinkRun r) = true := by
  unfold patchAddLinkRun
  repeat' split
  all_goals rfl

/-- An `append-data` run issues exactly one terminal response. -/
theorem terminalCount_append (r : AppendDataReq) :
    terminalCount (patchAppendDataRun r) = 1 := by
  unfold patchAppendDataRun
  repeat' split
  all_goals rfl

/-- A `set-data` run issues exactly one terminal response. -/
theorem terminalCount_setData (r : SetDataReq) :
    terminalCount (patchSetDataRun r) = 1 := by
  unfold patchSetDataRun
  repeat' split
  all_goals rfl

/-- An `rm-link` run issues exactly one terminal response. -/
theorem terminalCount_rmLink (r : RmLinkReq) :
    terminalCount (patchRmLinkRun r) = 1 := by
  unfold patchRmLinkRun
  repeat' split
  all_goals rfl

/-- An `add-link` run issues exactly one terminal response. -/
theorem terminalCount_addLink (r : AddLinkReq) :
    terminalCount (patchAddLinkRun r) = 1 := by
  unfold patchAddLinkRun
  repeat' split
  all_goals rfl

/-- Every engine call an `append-data` run makes is an `AppendData`. -/
theorem engineCalls_append_all (r : AppendDataReq) :
    (engineCalls (patchAppendDataRun r)).all EngineCall.isAppendData = true := by
  unfold patchAppendDataRun
  repeat' split
  all_goals rfl

/-- Every engine call a `set-data` run makes is a `SetData`. -/
theorem engineCalls_setData_all (r : SetDataReq) :
    (engineCalls (patchSetDataRun r)).all EngineCall.isSetData = true := by
  unfold patchSetDataRun
  repeat' split
  all_goals rfl

/-- Every engine call an `rm-link` run makes is an `RmLink`. -/
theorem engineCalls_rmLink_all (r : RmLinkReq) :
    (engineCalls (patchRmLinkRun r)).all EngineCall.isRmLink = true := by
  unfold patchRmLinkRun
  repeat' split
  all_goals rfl

/-- Every engine call an `add-link` run makes is an `AddLink`. -/
theorem engineCalls_addLink_all (r : AddLinkReq) :
    (engineCalls (patchAddLinkRun r)).all EngineCall.isAddLink = true := by
  unfold patchAddLinkRun
  repeat' split
  all_goals rfl

/-- When root resolution fails, an `append-data` run never calls the
engine. -/
theorem engineCalls_append_badroot (r : AppendDataReq) (e : String)
    (h : r.parsePath r.rootArg = .error e) :
    engineCalls (patchAppendDataRun r) = [] := by
  unfold patchAppendDataRun
  cases hga : r.getApi with
  | error e2 => rfl
  | ok u =>
    rw [h]
    rfl

/-- When root resolution fails, a `set-data` run never calls the engine. -/
theorem engineCalls_setData_badroot (r : SetDataReq) (e : String)
    (h : r.parsePath r.rootArg = .error e) :
    engineCalls (patchSetDataRun r) = [] := by
  unfold patchSetDataRun
  cases hga : r.getApi with
  | error e2 => rfl
  | ok u =>
    rw [h]
    rfl

/-- When root resolution fails, an `rm-link` run never calls the engine. -/
theorem engineCalls_rmLink_badroot (r : RmLinkReq) (e : String)
    (h : r.parsePath r.rootArg = .error e) :
    engineCalls (patchRmLinkRun r) = [] := by
  unfold patchRmLinkRun
  cases hga : r.getApi with
  | error e2 => rfl
  | ok u =>
    rw [h]
    rfl

/-- When root resolution fails, an `add-link` run never calls the engine. -/
theorem engineCalls_addLink_badroot (r : AddLinkReq) (e : String)
    (h : r.parsePath r.rootArg = .error e) :
    engineCalls (patchAddLinkRun r) = [] := by
  unfold patchAddLinkRun
  cases hga : r.getApi with
  | error e2 => rfl
  | ok u =>
    rw [h]
    rfl

/-- When ref resolution fails, an `add-link` run never calls the engine. -/
theorem engineCalls_addLink_badref (r : AddLinkReq) (e : String)
    (h : r.parsePath r.refArg = .error e) :
    engineCalls (patchAddLinkRun r) = [] := by
  unfold patchAddLinkRun
  cases hga : r.getApi with
  | error e2 => rfl
  | ok u =>
    cases hpp : r.parsePath r.rootArg with
    | error e2 => rfl
    | ok root =>
      rw [h]
      rfl

/-- A successful `append-data` run produces exactly the engine call and the
`SetOutput` of the new Cid string. -/
theorem run_append_success (r : AppendDataReq) (root : IPath) (data : FileData) (p : IPath)
    (h1 : r.getApi = .ok ()) (h2 : r.parsePath r.rootArg = .ok root)
    (h3 : r.nextFile = .ok data) (h4 : r.appendData root data = .ok p) :
    patchAppendDataRun r = [.engine (.appendData root data), .setOutput ⟨p.cid.str⟩] := by
  simp [patchAppendDataRun, h1, h2, h3, h4]

/-- A successful `set-data` run produces exactly the engine call and the
`SetOutput` of the new Cid string. -/
theorem run_setData_success (r : SetDataReq) (root : IPath) (data : FileData) (p : IPath)
    (h1 : r.getApi = .ok ()) (h2 : r.parsePath r.rootArg = .ok root)
    (h3 : r.nextFile = .ok data) (h4 : r.setData root data = .ok p) :
    patchSetDataRun r = [.engine (.setData root data), .setOutput ⟨p.cid.str⟩] := by
  simp [patchSetDataRun, h1, h2, h3, h4]

/-- A successful `rm-link` run produces exactly the engine call and the
`SetOutput` of the new Cid string. -/
theorem run_rmLink_success (r : RmLinkReq) (root : IPath) (p : IPath)
    (h1 : r.getApi = .ok ()) (h2 : r.parsePath r.rootArg = .ok root)
    (h3 : r.rmLink root r.linkArg = .ok p) :
    patchRmLinkRun r = [.engine (.rmLink root r.linkArg), .setOutput ⟨p.cid.str⟩] := by
  simp [patchRmLinkRun, h1, h2, h3]

/-- A successful `add-link` run produces exactly the engine call and the
`SetOutput` of the new Cid string. -/
theorem run_addLink_success (r : AddLinkReq) (root child : IPath) (cr fnd : Bool) (p : IPath)
    (h1 : r.getApi = .ok ()) (h2 : r.parsePath r.rootArg = .ok root)
    (h3 : r.parsePath r.refArg = .ok child)
    (h4 : optionBool r.createOpt = .ok (cr, fnd))
    (h5 : r.addLink root r.nameArg child cr = .ok p) :
    patchAddLinkRun r =
      [.engine (.addLink root r.nameArg child cr), .setOutput ⟨p.cid.str⟩] := by
  simp [patchAddLinkRun, h1, h2, h3, h4, h5]

/-- If an `append-data` run reached `SetOutput`, every prior step
succeeded and the output carries the engine result's Cid string. -/
theorem setOutput_append_success (r : AppendDataReq) (o : ObjectOut)
    (h : Event.setOutput o ∈ patchAppendDataRun r) :
    ∃ root data p, r.getApi = .ok () ∧ r.parsePath r.rootArg = .ok root ∧
      r.nextFile = .ok data ∧ r.appendData root data = .ok p ∧ o = ⟨p.cid.str⟩ := by
  cases hga : r.getApi with
  | error e => simp [patchAppendDataRun, hga] at h
  | ok u =>
    cases u
    simp only [patchAppendDataRun, hga] at h
    cases hpp : r.parsePath r.rootArg with
    | error e => simp [hpp] at h
    | ok root =>
      simp only [hpp] at h
      cases hnf : r.nextFile with
      | error e => simp [hnf] at h
      | ok data =>
        simp only [hnf] at h
        cases had : r.appendData root data with
        | error e => simp [had] at h
        | ok p =>
          simp only [had] at h
          simp at h
          exact ⟨root, data, p, rfl, rfl, rfl, had, h⟩

/-- If a `set-data` run reached `SetOutput`, every prior step succeeded
and the output carries the engine result's Cid string. -/
theorem setOutput_setData_success (r : SetDataReq) (o : ObjectOut)
    (h : Event.setOutput o ∈ patchSetDataRun r) :
    ∃ root data p, r.getApi = .ok () ∧ r.parsePath r.rootArg = .ok root ∧
      r.nextFile = .ok data ∧ r.setData root data = .ok p ∧ o = ⟨p.cid.str⟩ := by
  cases hga : r.getApi with
  | error e => simp [patchSetDataRun, hga] at h
  | ok u =>
    cases u
    simp only [patchSetDataRun, hga] at h
    cases hpp : r.parsePath r.rootArg with
    | error e => simp [hpp] at h
    | ok root =>
      simp only [hpp] at h
      cases hnf : r.nextFile with
      | error e => simp [hnf] at h
      | ok data =>
        simp only [hnf] at h
        cases had : r.setData root data with
        | error e => simp [had] at h
        | ok p =>
          simp only [had] at h
          simp at h
          exact ⟨root, data, p, rfl, rfl, rfl, had, h⟩

/-- If an `rm-link` run reached `SetOutput`, every prior step succeeded
and the output carries the engine result's Cid string. -/
theorem setOutput_rmLink_success (r : RmLinkReq) (o : ObjectOut)
    (h : Event.setOutput o ∈ patchRmLinkRun r) :
    ∃ root p, r.getApi = .ok () ∧ r.parsePath r.rootArg = .ok root ∧
      r.rmLink root r.linkArg = .ok p ∧ o = ⟨p.cid.str⟩ := by
  cases hga : r.getApi with
  | error e => simp [patchRmLinkRun, hga] at h
  | ok u =>
    cases u
    simp only [patchRmLinkRun, hga] at h
    cases hpp : r.parsePath r.rootArg with
    | error e => simp [hpp] at h
    | ok root =>
      simp only [hpp] at h
      cases had : r.rmLink root r.linkArg with
      | error e => simp [had] at h
      | ok p =>
        simp only [had] at h
        simp at h
        exact ⟨root, p, rfl, rfl, had, h⟩

/-- If an `add-link` run reached `SetOutput`, every prior step succeeded
and the output carries the engine result's Cid string. -/
theorem setOutput_addLink_success (r : AddLinkReq) (o : ObjectOut)
    (h : Event.setOutput o ∈ patchAddLinkRun r) :
    ∃ root child cr fnd p, r.getApi = .ok () ∧ r.parsePath r.rootArg = .ok root ∧
      r.parsePath r.refArg = .ok child ∧ optionBool r.createOpt = .ok (cr, fnd) ∧
      r.addLink root r.nameArg child cr = .ok p ∧ o = ⟨p.cid.str⟩ := by
  cases hga : r.getApi with
  | error e => simp [patchAddLinkRun, hga] at h
  | ok u =>
    cases u
    simp only [patchAddLinkRun, hga] at h
    cases hpp : r.parsePath r.rootArg with
    | error e => simp [hpp] at h
    | ok root =>
      simp only [hpp] at h
      cases hpc : r.parsePath r.refArg with
      | error e => simp [hpc] at h
      | ok child =>
        simp only [hpc] at h
        cases hob : optionBool r.createOpt with
        | error e => simp [hob] at h
        | ok pr =>
          obtain ⟨cr, fnd⟩ := pr
          simp only [hob] at h
          cases had : r.addLink root r.nameArg child cr with
          | error e => simp [had] at h
          | ok p =>
            simp only [had] at h
            simp at h
            exact ⟨root, child, cr, fnd, p, rfl, rfl, rfl, rfl, had, h⟩

/-- Every engine call an `add-link` run makes carries the create flag that
`Option("create").Bool()` parsed, and the link name from the second
argument. -/
theorem engineCalls_addLink_create (r : AddLinkReq) (cr fnd : Bool)
    (hob : optionBool r.createOpt = .ok (cr, fnd)) :
    ∀ root nm child cr2, EngineCall.addLink root nm child cr2 ∈
      engineCalls (patchAddLinkRun r) → cr2 = cr ∧ nm = r.nameArg := by
  intro root nm child cr2 hmem
  cases hga : r.getApi with
  | error e => simp [patchAddLinkRun, hga, engineCalls] at hmem
  | ok u =>
    simp only [patchAddLinkRun, hga] at hmem
    cases hpp : r.parsePath r.rootArg with
    | error e => simp [hpp, engineCalls] at hmem
    | ok root0 =>
      simp only [hpp] at hmem
      cases hpc : r.parsePath r.refArg with
      | error e => simp [hpc, engineCalls] at hmem
      | ok child0 =>
        simp only [hpc, hob] at hmem
        cases had : r.addLink root0 r.nameArg child0 cr with
        | error e =>
          simp [had, engineCalls] at hmem
          exact ⟨hmem.2.2.2, hmem.2.1⟩
        | ok p =>
          simp [had, engineCalls] at hmem
          exact ⟨hmem.2.2.2, hmem.2.1⟩

/-- Claim C1: for every patch subcommand invocation that succeeds, the run
produces exactly the engine call and one `SetOutput` carrying the new
object's Cid string, and the text marshaler renders exactly that identity
string followed by a single newline and nothing else. -/
theorem patch_text_output_exact (r1 : AppendDataReq) (r2 : SetDataReq)
    (r3 : RmLinkReq) (r4 : AddLinkReq) :
    (∀ root data p, r1.getApi = .ok () → r1.parsePath r1.rootArg = .ok root →
      r1.nextFile = .ok data → r1.appendData root data = .ok p →
      patchAppendDataRun r1 =
        [.engine (.appendData root data), .setOutput ⟨p.cid.str⟩] ∧
      objectMarshaler (.obj ⟨p.cid.str⟩) = .ok (p.cid.str ++ "\x0a")) ∧
    (∀ root data p, r2.getApi = .ok () → r2.parsePath r2.rootArg = .ok root →
      r2.nextFile = .ok data → r2.setData root data = .ok p →
      patchSetDataRun r2 =
        [.engine (.setData root data), .setOutput ⟨p.cid.str⟩] ∧
      objectMarshaler (.obj ⟨p.cid.str⟩) = .ok (p.cid.str ++ "\x0a")) ∧
    (∀ root p, r3.getApi = .ok () → r3.parsePath r3.rootArg = .ok root →
      r3.rmLink root r3.linkArg = .ok p →
      patchRmLinkRun r3 =
        [.engine (.rmLink root r3.linkArg), .setOutput ⟨p.cid.str⟩] ∧
      objectMarshaler (.obj ⟨p.cid.str⟩) = .ok (p.cid.str ++ "\x0a")) ∧
    (∀ root child cr fnd p, r4.getApi = .ok () →
      r4.parsePath r4.rootArg = .ok root → r4.parsePath r4.refArg = .ok child →
      optionBool r4.createOpt = .ok (cr, fnd) →
      r4.addLink root r4.nameArg child cr = .ok p →
      patchAddLinkRun r4 =
        [.engine (.addLink root r4.nameArg child cr), .setOutput ⟨p.cid.str⟩] ∧
      objectMarshaler (.obj ⟨p.cid.str⟩) = .ok (p.cid.str ++ "\x0a")) :=
  ⟨fun root data p h1 h2 h3 h4 => ⟨run_append_success r1 root data p h1 h2 h3 h4, rfl⟩,
   fun root data p h1 h2 h3 h4 => ⟨run_setData_success r2 root data p h1 h2 h3 h4, rfl⟩,
   fun root p h1 h2 h3 => ⟨run_rmLink_success r3 root p h1 h2 h3, rfl⟩,
   fun root child cr fnd p h1 h2 h3 h4 h5 =>
     ⟨run_addLink_success r4 root child cr fnd p h1 h2 h3 h4 h5, rfl⟩⟩

/-- Witness for C1: the concrete all-success requests for the four
subcommands, with the rendered text spelled out. -/
theorem patch_text_output_exact_witness :
    (patchAppendDataRun okAppendReq =
        [.engine (.appendData ⟨⟨"QmRoot"⟩⟩ ⟨0⟩), .setOutput ⟨"QmNew1"⟩] ∧
      objectMarshaler (.obj ⟨"QmNew1"⟩) = .ok ("QmNew1" ++ "\x0a")) ∧
    (patchSetDataRun okSetReq =
        [.engine (.setData ⟨⟨"QmRoot"⟩⟩ ⟨0⟩), .setOutput ⟨"QmNew2"⟩] ∧
      objectMarshaler (.obj ⟨"QmNew2"⟩) = .ok ("QmNew2" ++ "\x0a")) ∧
    (patchRmLinkRun okRmReq =
        [.engine (.rmLink ⟨⟨"QmRoot"⟩⟩ "foo"), .setOutput ⟨"QmNew3"⟩] ∧
      objectMarshaler (.obj ⟨"QmNew3"⟩) = .ok ("QmNew3" ++ "\x0a")) ∧
    (patchAddLinkRun okAddReq =
        [.engine (.addLink ⟨⟨"QmRoot"⟩⟩ "foo" ⟨⟨"QmChild"⟩⟩ true), .setOutput ⟨"QmNew4"⟩] ∧
      objectMarshaler (.obj ⟨"QmNew4"⟩) = .ok ("QmNew4" ++ "\x0a")) := by
  refine ⟨?_, ?_, ?_, ?_⟩
  · exact (patch_text_output_exact okAppendReq okSetReq okRmReq okAddReq).1
      ⟨⟨"QmRoot"⟩⟩ ⟨0⟩ ⟨⟨"QmNew1"⟩⟩ rfl rfl rfl rfl
  · exact (patch_text_output_exact okAppendReq okSetReq okRmReq okAddReq).2.1
      ⟨⟨"QmRoot"⟩⟩ ⟨0⟩ ⟨⟨"QmNew2"⟩⟩ rfl rfl rfl rfl
  · exact (patch_text_output_exact okAppendReq okSetReq okRmReq okAddReq).2.2.1
      ⟨⟨"QmRoot"⟩⟩ ⟨⟨"QmNew3"⟩⟩ rfl rfl rfl
  · exact (patch_text_output_exact okAppendReq okSetReq okRmReq okAddReq).2.2.2
      ⟨⟨"QmRoot"⟩⟩ ⟨⟨"QmChild"⟩⟩ true true ⟨⟨"QmNew4"⟩⟩ rfl rfl rfl rfl rfl

/-- Claim C2: in every patch subcommand run, every failure is reported via
`SetError` with the non-fatal kind `ErrNormal`; the handlers are total
functions of the collaborator outcomes, so no failure path crashes or
exits — each run ends in a normal response. -/
theorem patch_errors_always_normal (r1 : AppendDataReq) (r2 : SetDataReq)
    (r3 : RmLinkReq) (r4 : AddLinkReq) :
    errorsAreNormal (patchAppendDataRun r1) = true ∧
    errorsAreNormal (patchSetDataRun r2) = true ∧
    errorsAreNormal (patchRmLinkRun r3) = true ∧
    errorsAreNormal (patchAddLinkRun r4) = true :=
  ⟨errorsAreNormal_append r1, errorsAreNormal_setData r2,
   errorsAreNormal_rmLink r3, errorsAreNormal_addLink r4⟩

/-- Claim C3: the object-patch command exposes exactly the four
subcommands append-data, add-link, rm-link and set-data, and each
handler's engine calls are exclusively the correspondingly named Object
sub-API operation. -/
theorem objectPatch_subcommands_dispatch (r1 : AppendDataReq) (r2 : SetDataReq)
    (r3 : RmLinkReq) (r4 : AddLinkReq) :
    ObjectPatchSubcommands.map Prod.fst =
      ["append-data", "add-link", "rm-link", "set-data"] ∧
    ObjectPatchSubcommands.length = 4 ∧
    ObjectPatchSubcommands.lookup "append-data" = some .appendDataH ∧
    ObjectPatchSubcommands.lookup "add-link" = some .addLinkH ∧
    ObjectPatchSubcommands.lookup "rm-link" = some .rmLinkH ∧
    ObjectPatchSubcommands.lookup "set-data" = some .setDataH ∧
    (engineCalls (patchAppendDataRun r1)).all EngineCall.isAppendData = true ∧
    (engineCalls (patchAddLinkRun r4)).all EngineCall.isAddLink = true ∧
    (engineCalls (patchRmLinkRun r3)).all EngineCall.isRmLink = true ∧
    (engineCalls (patchSetDataRun r2)).all EngineCall.isSetData = true :=
  ⟨rfl, rfl, rfl, rfl, rfl, rfl, engineCalls_append_all r1,
   engineCalls_addLink_all r4, engineCalls_rmLink_all r3,
   engineCalls_setData_all r2⟩

/-- Claim C4: the add-link subcommand declares the single boolean option
`create` with short form `p`, and whenever that option was supplied with a
boolean value, every engine call the run makes is an `AddLink` whose
create flag is exactly that value (and whose link name is the second
argument). -/
theorem addLink_create_option_passthrough (r : AddLinkReq) (b : Bool)
    (hopt : r.createOpt = .present b) :
    patchAddLinkOptions = [⟨"create", "p", "Create intermediary nodes."⟩] ∧
    ∀ root nm child cr, EngineCall.addLink root nm child cr ∈
      engineCalls (patchAddLinkRun r) → cr = b ∧ nm = r.nameArg :=
  ⟨rfl, engineCalls_addLink_create r b true (by rw [hopt]; rfl)⟩

/-- Witness for C4 at the concrete request `okAddReq` where `--create` was
supplied as true: the engine call observed in its trace carries create =
true. -/
theorem addLink_create_option_passthrough_witness :
    (true = true ∧ "foo" = okAddReq.nameArg) ∧
    patchAddLinkOptions = [⟨"create", "p", "Create intermediary nodes."⟩] := by
  have H := addLink_create_option_passthrough okAddReq true rfl
  exact ⟨H.2 ⟨⟨"QmRoot"⟩⟩ "foo" ⟨⟨"QmChild"⟩⟩ true (by decide), H.1⟩

/-- Claim C9: every Run handler issues exactly one terminal response
(`SetError` or `SetOutput`) per invocation; the engine operation is never
invoked when root (or, for add-link, ref) resolution failed; and
`SetOutput` is reached only when every prior step succeeded, carrying the
engine result's Cid string. -/
theorem patch_run_single_response (r1 : AppendDataReq) (r2 : SetDataReq)
    (r3 : RmLinkReq) (r4 : AddLinkReq) :
    terminalCount (patchAppendDataRun r1) = 1 ∧
    terminalCount (patchSetDataRun r2) = 1 ∧
    terminalCount (patchRmLinkRun r3) = 1 ∧
    terminalCount (patchAddLinkRun r4) = 1 ∧
    (∀ e, r1.parsePath r1.rootArg = .error e →
      engineCalls (patchAppendDataRun r1) = []) ∧
    (∀ e, r2.parsePath r2.rootArg = .error e →
      engineCalls (patchSetDataRun r2) = []) ∧
    (∀ e, r3.parsePath r3.rootArg = .error e →
      engineCalls (patchRmLinkRun r3) = []) ∧
    (∀ e, r4.parsePath r4.rootArg = .error e →
      engineCalls (patchAddLinkRun r4) = []) ∧
    (∀ e, r4.parsePath r4.refArg = .error e →
      engineCalls (patchAddLinkRun r4) = []) ∧
    (∀ o, Event.setOutput o ∈ patchAppendDataRun r1 → ∃ root data p,
      r1.getApi = .ok () ∧ r1.parsePath r1.rootArg = .ok root ∧
      r1.nextFile = .ok data ∧ r1.appendData root data = .ok p ∧
      o = ⟨p.cid.str⟩) ∧
    (∀ o, Event.setOutput o ∈ patchSetDataRun r2 → ∃ root data p,
      r2.getApi = .ok () ∧ r2.parsePath r2.rootArg = .ok root ∧
      r2.nextFile = .ok data ∧ r2.setData root data = .ok p ∧
      o = ⟨p.cid.str⟩) ∧
    (∀ o, Event.setOutput o ∈ patchRmLinkRun r3 → ∃ root p,
      r3.getApi = .ok () ∧ r3.parsePath r3.rootArg = .ok root ∧
      r3.rmLink root r3.linkArg = .ok p ∧ o = ⟨p.cid.str⟩) ∧
    (∀ o, Event.setOutput o ∈ patchAddLinkRun r4 → ∃ root child cr fnd p,
      r4.getApi = .ok () ∧ r4.parsePath r4.rootArg = .ok root ∧
      r4.parsePath r4.refArg = .ok child ∧
      optionBool r4.createOpt = .ok (cr, fnd) ∧
      r4.addLink root r4.nameArg child cr = .ok p ∧ o = ⟨p.cid.str⟩) :=
  ⟨terminalCount_append r1, terminalCount_setData r2, terminalCount_rmLink r3,
   terminalCount_addLink r4,
   fun e h => engineCalls_append_badroot r1 e h,
   fun e h => engineCalls_setData_badroot r2 e h,
   fun e h => engineCalls_rmLink_badroot r3 e h,
   fun e h => engineCalls_addLink_badroot r4 e h,
   fun e h => engineCalls_addLink_badref r4 e h,
   fun o h => setOutput_append_success r1 o h,
   fun o h => setOutput_setData_success r2 o h,
   fun o h => setOutput_rmLink_success r3 o h,
   fun o h => setOutput_addLink_success r4 o h⟩

/-- Witness for C9: exact terminal counts on the all-success requests, no
engine call on the failing-resolution requests, and the success-only
`SetOutput` fact at a concrete output. -/
theorem patch_run_single_response_witness :
    terminalCount (patchAppendDataRun okAppendReq) = 1 ∧
    terminalCount (patchSetDataRun okSetReq) = 1 ∧
    terminalCount (patchRmLinkRun okRmReq) = 1 ∧
    terminalCount (patchAddLinkRun okAddReq) = 1 ∧
    engineCalls (patchAppendDataRun badPathAppendReq) = [] ∧
    engineCalls (patchSetDataRun badPathSetReq) = [] ∧
    engineCalls (patchRmLinkRun badPathRmReq) = [] ∧
    engineCalls (patchAddLinkRun badPathAddReq) = [] ∧
    engineCalls (patchAddLinkRun badRefAddReq) = [] ∧
    (∃ root data p, okAppendReq.getApi = .ok () ∧
      okAppendReq.parsePath okAppendReq.rootArg = .ok root ∧
      okAppendReq.nextFile = .ok data ∧
      okAppendReq.appendData root data = .ok p ∧
      (⟨"QmNew1"⟩ : ObjectOut) = ⟨p.cid.str⟩) := by
  have Hok := patch_run_single_response okAppendReq okSetReq okRmReq okAddReq
  have Hbad := patch_run_single_response badPathAppendReq badPathSetReq
    badPathRmReq badPathAddReq
  have Href := patch_run_single_response okAppendReq okSetReq okRmReq badRefAddReq
  refine ⟨Hok.1, Hok.2.1, Hok.2.2.1, Hok.2.2.2.1, ?_, ?_, ?_, ?_, ?_, ?_⟩
  · exact Hbad.2.2.2.2.1 "resolve failed" rfl
  · exact Hbad.2.2.2.2.2.1 "resolve failed" rfl
  · exact Hbad.2.2.2.2.2.2.1 "resolve failed" rfl
  · exact Hbad.2.2.2.2.2.2.2.1 "resolve failed" rfl
  · exact Href.2.2.2.2.2.2.2.2.1 "ref resolve failed" rfl
  · exact Hok.2.2.2.2.2.2.2.2.2.1 ⟨"QmNew1"⟩ (by decide)

/-- Claim C10: when the add-link subcommand is invoked without the
`--create` option, the found flag is discarded and the default `false` is
what every engine call receives as its create flag, so intermediary-node
synthesis is disabled by default. -/
theorem addLink_create_default_false (r : AddLinkReq)
    (hopt : r.createOpt = .absent) :
    ∀ root nm child cr, EngineCall.addLink root nm child cr ∈
      engineCalls (patchAddLinkRun r) → cr = false ∧ nm = r.nameArg :=
  engineCalls_addLink_create r false false (by rw [hopt]; rfl)

/-- Witness for C10 at the concrete request `noOptAddReq` where `--create`
was not supplied: the engine call observed in its trace carries create =
false. -/
theorem addLink_create_default_false_witness :
    false = false ∧ "foo" = noOptAddReq.nameArg :=
  addLink_create_default_false noOptAddReq rfl
    ⟨⟨"QmRoot"⟩⟩ "foo" ⟨⟨"QmChild"⟩⟩ false (by decide)

end Cmds
